import Mathlib

/-!
Shallow embedding of the judgment pipeline (src/judgment_pipeline/judgement.py):
image resolution from object storage, detection-to-annotation formatting,
score aggregation, and the create-vs-update prediction reconciliation,
together with the batch loop of the predict route.

Python floats are modelled as rationals (ℚ); all formulas in the claims are
exact arithmetic on values representable without rounding concerns.
External collaborators (object store, decoder, detector, annotation platform)
appear as explicit inputs: function-valued parameters or per-task environment
fields, exactly where the source calls them.
-/

/-- A bounding box as produced by the layout model (`block.block` in the
source): pixel coordinates `x_1, y_1, x_2, y_2`. -/
structure Rect where
  x_1 : ℚ
  y_1 : ℚ
  x_2 : ℚ
  y_2 : ℚ
deriving Repr, DecidableEq

/-- One detected region (`block` in `formatted_model_results`): a class label
(`block.type`), a bounding box (`block.block`) and a confidence
(`block.score`). -/
structure LayoutBlock where
  type : String
  block : Rect
  score : ℚ
deriving Repr, DecidableEq

/-- The `value` dict of an emitted annotation region: label list plus the four
percentage fields. -/
structure AnnotationValue where
  rectanglelabels : List String
  x : ℚ
  y : ℚ
  width : ℚ
  height : ℚ
deriving Repr, DecidableEq

/-- One entry appended to `results` in `formatted_model_results`. -/
structure AnnotationRegion where
  from_name : String
  to_name : String
  type : String
  value : AnnotationValue
  score : ℚ
deriving Repr, DecidableEq

/-- Model of `Translator.formatted_model_results`: per block, pad the x-axis by
`x_1 - 30` / `x_2 + 10`, convert to percentages of image width/height, emit
the region dict; accumulate `score_sum` and finish with
`avg_score = score_sum / len(results) if score_sum > 0 else 0`. -/
def formatted_model_results (from_name to_name : String) (img_height img_width : ℚ)
    (layout_predicted_results : List LayoutBlock) : List AnnotationRegion × ℚ :=
  let results := layout_predicted_results.map fun block =>
    let x := block.block.x_1 - 30
    let y := block.block.y_1
    let xmax := block.block.x_2 + 10
    let ymax := block.block.y_2
    let output_label := block.type
    { from_name := from_name
      to_name := to_name
      type := "rectanglelabels"
      value :=
        { rectanglelabels := [output_label]
          x := x / img_width * 100
          y := y / img_height * 100
          width := (xmax - x) / img_width * 100
          height := (ymax - y) / img_height * 100 }
      score := block.score }
  let score_sum := (layout_predicted_results.map (fun b => b.score)).sum
  let avg_score := if score_sum > 0 then score_sum / (results.length : ℚ) else 0
  (results, avg_score)

/-- Sum of the per-region confidences, as accumulated by the loop. -/
def scoreSum (blocks : List LayoutBlock) : ℚ :=
  (blocks.map (fun b => b.score)).sum

theorem formatted_model_results_snd (fn tn : String) (h w : ℚ) (blocks : List LayoutBlock) :
    (formatted_model_results fn tn h w blocks).2 =
      if scoreSum blocks > 0 then scoreSum blocks / (blocks.length : ℚ) else 0 := by
  simp [formatted_model_results, scoreSum]

/-- C1: the aggregate score is the mean when confidences sum to S > 0, and 0
for the empty list or a zero confidence sum. -/
theorem aggregate_score_mean_or_zero (fn tn : String) (h w : ℚ)
    (blocks : List LayoutBlock) :
    (0 < scoreSum blocks →
      (formatted_model_results fn tn h w blocks).2 =
        scoreSum blocks / (blocks.length : ℚ)) ∧
    (blocks = [] → (formatted_model_results fn tn h w blocks).2 = 0) ∧
    (scoreSum blocks = 0 → (formatted_model_results fn tn h w blocks).2 = 0) := by
  refine ⟨fun hpos => ?_, fun hnil => ?_, fun hzero => ?_⟩
  · rw [formatted_model_results_snd, if_pos hpos]
  · subst hnil
    rw [formatted_model_results_snd]
    simp [scoreSum]
  · rw [formatted_model_results_snd, hzero]
    simp

/-- Witness for C1 at concrete inputs: two regions with confidences 1/2 and
7/10 give aggregate 3/5, and the empty list gives 0. -/
theorem aggregate_score_mean_or_zero_witness :
    (0 < scoreSum
        [⟨"text", ⟨0, 0, 1, 1⟩, 1/2⟩, ⟨"table", ⟨0, 0, 1, 1⟩, 7/10⟩]) ∧
    (formatted_model_results "label" "image" 2000 1000
        [⟨"text", ⟨0, 0, 1, 1⟩, 1/2⟩, ⟨"table", ⟨0, 0, 1, 1⟩, 7/10⟩]).2 =
      scoreSum [⟨"text", ⟨0, 0, 1, 1⟩, 1/2⟩, ⟨"table", ⟨0, 0, 1, 1⟩, 7/10⟩] /
        (([⟨"text", ⟨0, 0, 1, 1⟩, (1:ℚ)/2⟩,
           ⟨"table", ⟨0, 0, 1, 1⟩, 7/10⟩] : List LayoutBlock).length : ℚ) ∧
    (formatted_model_results "label" "image" 2000 1000 ([] : List LayoutBlock)).2 = 0 :=
  ⟨by norm_num [scoreSum],
   (aggregate_score_mean_or_zero "label" "image" 2000 1000
      [⟨"text", ⟨0, 0, 1, 1⟩, 1/2⟩, ⟨"table", ⟨0, 0, 1, 1⟩, 7/10⟩]).1
     (by norm_num [scoreSum]),
   (aggregate_score_mean_or_zero "label" "image" 2000 1000 []).2.1 rfl⟩

theorem formatted_model_results_fst (fn tn : String) (h w : ℚ)
    (blocks : List LayoutBlock) :
    (formatted_model_results fn tn h w blocks).1 = blocks.map (fun b =>
      { from_name := fn
        to_name := tn
        type := "rectanglelabels"
        value :=
          { rectanglelabels := [b.type]
            x := (b.block.x_1 - 30) / w * 100
            y := b.block.y_1 / h * 100
            width := (b.block.x_2 + 10 - (b.block.x_1 - 30)) / w * 100
            height := (b.block.y_2 - b.block.y_1) / h * 100 }
        score := b.score }) := rfl

/-- C2: each emitted region carries the claimed percentage formulas, the label
list and the confidence; on the 1000×2000 scenario with one table detection at
(100,100,200,200) and confidence 9/10, the output is x = 7, y = 5, width = 14,
height = 5 with aggregate score 9/10. -/
theorem region_formatting_formulas (fn tn : String) (h w : ℚ)
    (blocks : List LayoutBlock) :
    ((formatted_model_results fn tn h w blocks).1 = blocks.map (fun b =>
      { from_name := fn
        to_name := tn
        type := "rectanglelabels"
        value :=
          { rectanglelabels := [b.type]
            x := (b.block.x_1 - 30) / w * 100
            y := b.block.y_1 / h * 100
            width := (b.block.x_2 + 10 - (b.block.x_1 - 30)) / w * 100
            height := (b.block.y_2 - b.block.y_1) / h * 100 }
        score := b.score })) ∧
    formatted_model_results "label" "image" 2000 1000
        [⟨"table", ⟨100, 100, 200, 200⟩, 9/10⟩] =
      ([{ from_name := "label"
          to_name := "image"
          type := "rectanglelabels"
          value := { rectanglelabels := ["table"], x := 7, y := 5, width := 14, height := 5 }
          score := 9/10 }], 9/10) := by
  constructor
  · exact formatted_model_results_fst fn tn h w blocks
  · simp [formatted_model_results]
    norm_num

/-- C3 counterexample: for in-bounds boxes (x2 ≥ x1, y2 ≥ y1, inside a
1000×1000 image), the x-padding of −30 yields x = −3 < 0 for the box
(0,0,10,10), and the padded width for the box (0,0,1000,10) is 104 > 100. -/
theorem region_value_range_counterexample :
    ((formatted_model_results "label" "image" 1000 1000
        [⟨"text", ⟨0, 0, 10, 10⟩, 1/2⟩]).1.map fun r => r.value.x) = [-3] ∧
    ((formatted_model_results "label" "image" 1000 1000
        [⟨"table", ⟨0, 0, 1000, 10⟩, 1/2⟩]).1.map fun r => r.value.width) = [104] ∧
    ¬ ((0:ℚ) ≤ -3) ∧ ¬ ((104:ℚ) ≤ 100) := by
  refine ⟨?_, ?_, by norm_num, by norm_num⟩
  · simp [formatted_model_results]
    norm_num
  · simp [formatted_model_results]
    norm_num

/-- C3 amended: for boxes with x2 ≥ x1, y2 ≥ y1 inside the image bounds
(w, h > 0), every emitted region has y and height in [0,100], non-negative
width and height, and x ≤ 100; x may be negative and width may exceed 100
because of the −30/+10 x-padding. -/
theorem region_value_range_amended (fn tn : String) (h w : ℚ)
    (blocks : List LayoutBlock) (hw : 0 < w) (hh : 0 < h)
    (hb : ∀ b ∈ blocks,
      0 ≤ b.block.x_1 ∧ b.block.x_1 ≤ b.block.x_2 ∧ b.block.x_2 ≤ w ∧
      0 ≤ b.block.y_1 ∧ b.block.y_1 ≤ b.block.y_2 ∧ b.block.y_2 ≤ h) :
    ∀ r ∈ (formatted_model_results fn tn h w blocks).1,
      0 ≤ r.value.y ∧ r.value.y ≤ 100 ∧
      0 ≤ r.value.height ∧ r.value.height ≤ 100 ∧
      0 ≤ r.value.width ∧ r.value.x ≤ 100 := by
  intro r hr
  rw [formatted_model_results_fst, List.mem_map] at hr
  obtain ⟨b, hbmem, rfl⟩ := hr
  obtain ⟨hx1, hx12, hx2, hy1, hy12, hy2⟩ := hb b hbmem
  refine ⟨?_, ?_, ?_, ?_, ?_, ?_⟩
  · positivity
  · show b.block.y_1 / h * 100 ≤ 100
    rw [div_mul_eq_mul_div, div_le_iff₀ hh]
    nlinarith
  · have hsub : 0 ≤ b.block.y_2 - b.block.y_1 := by linarith
    positivity
  · show (b.block.y_2 - b.block.y_1) / h * 100 ≤ 100
    rw [div_mul_eq_mul_div, div_le_iff₀ hh]
    nlinarith
  · have hsub : 0 ≤ b.block.x_2 + 10 - (b.block.x_1 - 30) := by linarith
    positivity
  · show (b.block.x_1 - 30) / w * 100 ≤ 100
    rw [div_mul_eq_mul_div, div_le_iff₀ hw]
    nlinarith

/-- Witness for the amended C3 at a concrete in-bounds box. -/
theorem region_value_range_amended_witness :
    0 ≤ ({ from_name := "label", to_name := "image", type := "rectanglelabels",
           value := { rectanglelabels := ["text"], x := 0, y := 0, width := 50, height := 50 },
           score := 1/2 } : AnnotationRegion).value.y :=
  (region_value_range_amended "label" "image" 200 100
    [⟨"text", ⟨30, 0, 40, 100⟩, 1/2⟩] (by norm_num) (by norm_num)
    (by intro b hb; simp at hb; subst hb; norm_num)
    _ (by simp [formatted_model_results]; norm_num)).1

/-- An HTTP response from the annotation platform, as seen by the pipeline:
a status code and the parsed JSON body (kept opaque as a string — only its
presence matters to the code). -/
structure HttpResponse where
  status_code : Nat
  body : String
deriving Repr, DecidableEq

/-- Model of `Translator.get_previous_prediction_result_from_labelstudio`: GET the
prediction for a task; return the body on status 200, `None` otherwise. -/
def get_previous_prediction_result_from_labelstudio (res : HttpResponse) :
    Option String :=
  if res.status_code = 200 then some res.body else none

/-- HTTP method of the prediction write. -/
inductive HttpMethod
  | post
  | put
deriving Repr, DecidableEq

/-- The JSON payload of the prediction write. -/
structure WritePayload where
  result : List AnnotationRegion
  score : ℚ
  model_version : String
  task : Nat
deriving Repr, DecidableEq

/-- Model of `Translator.create_prediction`: PUT when a previous prediction exists,
POST otherwise; both branches send the same payload. The issued request
(method and payload) is the value of interest, so the function returns it. -/
def create_prediction (results : List AnnotationRegion) (task_id : Nat)
    (is_prediction_exist : Bool) (score : ℚ) : HttpMethod × WritePayload :=
  if is_prediction_exist then
    (HttpMethod.put,
      { result := results, score := score, model_version := "detectron2", task := task_id })
  else
    (HttpMethod.post,
      { result := results, score := score, model_version := "detectron2", task := task_id })

/-- C4: the reconciler decides from the GET status: 200 means a prediction
exists and the write is a PUT; any other status means it does not and the
write is a POST; either way the payload is
result/score/model_version "detectron2"/task id. -/
theorem reconcile_create_vs_update (res : HttpResponse)
    (results : List AnnotationRegion) (task_id : Nat) (score : ℚ) :
    (res.status_code = 200 →
      (create_prediction results task_id
        (get_previous_prediction_result_from_labelstudio res).isSome score).1 =
        HttpMethod.put) ∧
    (res.status_code ≠ 200 →
      (create_prediction results task_id
        (get_previous_prediction_result_from_labelstudio res).isSome score).1 =
        HttpMethod.post) ∧
    (create_prediction results task_id
        (get_previous_prediction_result_from_labelstudio res).isSome score).2 =
      { result := results, score := score, model_version := "detectron2", task := task_id } := by
  refine ⟨fun h200 => ?_, fun hne => ?_, ?_⟩
  · simp [get_previous_prediction_result_from_labelstudio, create_prediction, h200]
  · simp [get_previous_prediction_result_from_labelstudio, create_prediction, hne]
  · by_cases h : res.status_code = 200 <;>
      simp [get_previous_prediction_result_from_labelstudio, create_prediction, h]

/-- Witness for C4: status 200 yields a PUT, status 404 yields a POST. -/
theorem reconcile_create_vs_update_witness :
    (create_prediction [] 7
      (get_previous_prediction_result_from_labelstudio ⟨200, "prev"⟩).isSome 0).1 =
      HttpMethod.put ∧
    (create_prediction [] 7
      (get_previous_prediction_result_from_labelstudio ⟨404, ""⟩).isSome 0).1 =
      HttpMethod.post :=
  ⟨(reconcile_create_vs_update ⟨200, "prev"⟩ [] 7 0).1 rfl,
   (reconcile_create_vs_update ⟨404, ""⟩ [] 7 0).2.1 (by decide)⟩

/-- Raw bytes fetched from the object store. -/
abbrev Bytes := List Nat

/-- A decoded pixel buffer; only its shape matters to the pipeline
(`image_data.shape[0]` = height, `image_data.shape[1]` = width). -/
structure Image where
  height : Nat
  width : Nat
deriving Repr, DecidableEq

/-- Failures that can propagate out of a task's processing. -/
inductive PipeErr
  | indexError      -- image_path.split("//")[1] when the path has no "//"
  | clientError     -- object store: bucket or key not found
  | attributeError  -- None.shape: cv2.imdecode returned None upstream
  | detectorError   -- model.detect raised
deriving Repr, DecidableEq

/-- Python `str.split` with a one-character separator: split at every
occurrence, keeping empty pieces (the result is never the empty list). -/
def splitOnChar (a : Char) : List Char → List (List Char)
  | [] => [[]]
  | c :: rest =>
    if c = a then [] :: splitOnChar a rest
    else
      match splitOnChar a rest with
      | [] => [[c]]
      | g :: gs => (c :: g) :: gs

/-- Python `str.split` with a two-character separator such as "//": split at
each non-overlapping occurrence, scanning left to right. -/
def splitOnPair (a b : Char) : List Char → List (List Char)
  | [] => [[]]
  | [c] => [[c]]
  | c1 :: c2 :: rest =>
    if c1 = a ∧ c2 = b then [] :: splitOnPair a b rest
    else
      match splitOnPair a b (c2 :: rest) with
      | [] => [[c1]]
      | g :: gs => (c1 :: g) :: gs

/-- Model of `os.path.basename`: the part of the path after the last "/". -/
def basename (s : String) : String :=
  ((splitOnChar '/' s.toList).getLastD []).asString

/-- Model of `image_path.split("//")[1].split("/")[0]`: the host segment of the URI;
`none` models the IndexError when the path contains no "//". -/
def bucketSegment (image_path : String) : Option String :=
  match (splitOnPair '/' '/' image_path.toList).get? 1 with
  | none => none
  | some rest => some ((splitOnChar '/' rest).headD []).asString

/-- Model of `Translator.get_image_from_s3`: parse bucket and key from the image path,
fetch from the store (conditioning on whether the parsed bucket equals the
configured default bucket), and decode with cv2.imdecode — which yields
`none` (Python `None`) when the bytes are not an image, not an exception.
The store and decoder are explicit collaborators. -/
def get_image_from_s3 (images_bucket : String)
    (get_object : String → String → Except PipeErr Bytes)
    (imdecode : Bytes → Option Image)
    (image_path : String) : Except PipeErr (Option Image) :=
  let image_name := basename image_path
  match bucketSegment image_path with
  | none => Except.error PipeErr.indexError
  | some bucket_name => do
    let response ←
      if bucket_name ≠ images_bucket then get_object bucket_name image_name
      else get_object images_bucket image_name
    return imdecode response

/-- Refinement reference for C10, following the claim: the fetched object is
always (bucket = URI host segment, key = path basename), with no conditional
on the configured default bucket. -/
def get_image_from_s3_spec
    (get_object : String → String → Except PipeErr Bytes)
    (imdecode : Bytes → Option Image)
    (image_path : String) : Except PipeErr (Option Image) :=
  match bucketSegment image_path with
  | none => Except.error PipeErr.indexError
  | some bucket_name => do
    let response ← get_object bucket_name (basename image_path)
    return imdecode response

/-- C10: the two branches of bucket resolution are equivalent — for every
image path and every store, the code's conditional fetch equals the
unconditional fetch of (URI host segment, basename). -/
theorem bucket_resolution_equivalent (images_bucket : String)
    (get_object : String → String → Except PipeErr Bytes)
    (imdecode : Bytes → Option Image) (image_path : String) :
    get_image_from_s3 images_bucket get_object imdecode image_path =
      get_image_from_s3_spec get_object imdecode image_path := by
  unfold get_image_from_s3 get_image_from_s3_spec
  cases hb : bucketSegment image_path with
  | none => rfl
  | some bucket_name =>
    by_cases hbn : bucket_name = images_bucket <;> simp [hbn]

/-- One annotation task from the request body: `{id, data: {image: <uri>}}`. -/
structure AnnotationTask where
  id : Nat
  image : String
deriving Repr, DecidableEq

/-- The external world observed while processing one task: the platform's GET
response for the existence check, the object store, the decoder, the detector,
and the status of the write response (which the loop only logs). The store,
decoder and detector are process-wide collaborators in the source; keeping
them per task only makes the statements more general. -/
structure TaskEnv where
  prev_response : HttpResponse
  get_object : String → String → Except PipeErr Bytes
  imdecode : Bytes → Option Image
  detect : Image → Except PipeErr (List LayoutBlock)
  write_status : Nat

/-- Model of `Translator.process_single_task`: existence check, image resolution
(an undecodable image surfaces here as an attribute error on
`image_data.shape`), detection, and formatting. -/
def process_single_task (images_bucket from_name to_name : String)
    (env : TaskEnv) (task : AnnotationTask) :
    Except PipeErr (List AnnotationRegion × Nat × Bool × ℚ) := do
  let task_id := task.id
  let previous_prediction_result :=
    get_previous_prediction_result_from_labelstudio env.prev_response
  let is_prediction_exist := previous_prediction_result.isSome
  let image_path := task.image
  let image_data? ← get_image_from_s3 images_bucket env.get_object env.imdecode image_path
  let image_data ← match image_data? with
    | none => Except.error PipeErr.attributeError
    | some img => pure img
  let img_width := (image_data.width : ℚ)
  let img_height := (image_data.height : ℚ)
  let layout_predicted ← env.detect image_data
  let (results, score) :=
    formatted_model_results from_name to_name img_height img_width layout_predicted
  return (results, task_id, is_prediction_exist, score)

/-- One entry of the predict route's response list:
`{result, score, model_version}`. -/
structure PredictionEntry where
  result : List AnnotationRegion
  score : ℚ
  model_version : String
deriving Repr, DecidableEq

/-- The batch loop of `Translator.__call__` on the predict route: per task,
process, issue the reconciling write (whose request is computed by
`create_prediction` and whose response status is only logged), and append
`{result, score, model_version: "something"}` to the response list. An
exception anywhere stops the loop and discards the partial list. -/
def predict_loop (images_bucket from_name to_name : String) :
    List (AnnotationTask × TaskEnv) → Except PipeErr (List PredictionEntry)
  | [] => Except.ok []
  | (task, env) :: rest => do
    let (results, task_id, is_prediction_exist, score) ←
      process_single_task images_bucket from_name to_name env task
    let _res := create_prediction results task_id is_prediction_exist score
    let predictions ← predict_loop images_bucket from_name to_name rest
    return { result := results, score := score, model_version := "something" } :: predictions

/-- The response entry a single task contributes when it succeeds. -/
def predict_step (images_bucket from_name to_name : String) (te : AnnotationTask × TaskEnv) :
    Except PipeErr PredictionEntry :=
  (process_single_task images_bucket from_name to_name te.2 te.1).map
    (fun r => { result := r.1, score := r.2.2.2, model_version := "something" })

/-- C5: a failure while processing one task propagates out of the batch loop:
if every task before it succeeds and task `te` fails with `e`, the whole loop
fails with `e` and no entries are returned for `te` or any later task. -/
theorem batch_failure_aborts (images_bucket fn tn : String)
    (pre post : List (AnnotationTask × TaskEnv)) (te : AnnotationTask × TaskEnv) (e : PipeErr)
    (hpre : ∀ x ∈ pre, (process_single_task images_bucket fn tn x.2 x.1).isOk)
    (hfail : process_single_task images_bucket fn tn te.2 te.1 = Except.error e) :
    predict_loop images_bucket fn tn (pre ++ te :: post) = Except.error e := by
  induction pre with
  | nil =>
    obtain ⟨t, env⟩ := te
    simp only [List.nil_append, predict_loop]
    rw [hfail]
    rfl
  | cons x rest ih =>
    obtain ⟨t, env⟩ := x
    have hx := hpre (t, env) (List.mem_cons_self _ _)
    cases hp : process_single_task images_bucket fn tn env t with
    | error err => rw [hp] at hx; exact absurd hx (by simp [Except.isOk, Except.toBool])
    | ok val =>
      obtain ⟨results, task_id, is_exist, score⟩ := val
      have ihr := ih (fun y hy => hpre y (List.mem_cons_of_mem _ hy))
      simp only [List.cons_append, predict_loop]
      rw [hp]
      simp only [List.append_eq]
      rw [ihr]
      rfl

/-- A concrete task and environments used by the witnesses below. -/
def sampleTask : AnnotationTask :=
  { id := 1, image := "https://bkt/img.png" }

/-- An environment in which every stage succeeds: no previous prediction,
bytes fetch succeeds, decoding yields a 100×100 image, no detections. -/
def sampleEnv : TaskEnv :=
  { prev_response := ⟨404, ""⟩
    get_object := fun _ _ => Except.ok [0]
    imdecode := fun _ => some { height := 100, width := 100 }
    detect := fun _ => Except.ok []
    write_status := 201 }

/-- An environment whose object store fails with a not-found error. -/
def failEnv : TaskEnv :=
  { sampleEnv with get_object := fun _ _ => Except.error PipeErr.clientError }

/-- Witness for C5: a task whose image fetch fails aborts the batch. -/
theorem batch_failure_aborts_witness :
    predict_loop "bkt" "label" "image" [(sampleTask, failEnv)] =
      Except.error PipeErr.clientError :=
  batch_failure_aborts "bkt" "label" "image" [] [] (sampleTask, failEnv)
    PipeErr.clientError (by intro x hx; simp at hx) (by rfl)

theorem predict_loop_cons (images_bucket fn tn : String) (t : AnnotationTask)
    (env : TaskEnv) (rest : List (AnnotationTask × TaskEnv)) :
    predict_loop images_bucket fn tn ((t, env) :: rest) =
      match process_single_task images_bucket fn tn env t with
      | Except.error e => Except.error e
      | Except.ok v =>
        match predict_loop images_bucket fn tn rest with
        | Except.error e => Except.error e
        | Except.ok ps =>
          Except.ok
            ({ result := v.1, score := v.2.2.2, model_version := "something" } :: ps) := by
  cases hp : process_single_task images_bucket fn tn env t with
  | error e =>
    simp only [predict_loop]
    rw [hp]
    rfl
  | ok v =>
    obtain ⟨a, b, c, d⟩ := v
    simp only [predict_loop]
    rw [hp]
    cases predict_loop images_bucket fn tn rest <;> rfl

/-- C6: when the batch loop succeeds, the response list has exactly one entry
per input task, in input order: entry i is the entry contributed by task i. -/
theorem batch_success_shape (images_bucket fn tn : String)
    (pairs : List (AnnotationTask × TaskEnv)) (ps : List PredictionEntry)
    (h : predict_loop images_bucket fn tn pairs = Except.ok ps) :
    ps.length = pairs.length ∧
    ∀ i (h1 : i < pairs.length) (h2 : i < ps.length),
      Except.ok (ps.get ⟨i, h2⟩) = predict_step images_bucket fn tn (pairs.get ⟨i, h1⟩) := by
  induction pairs generalizing ps with
  | nil =>
    simp only [predict_loop] at h
    injection h with h'
    subst h'
    exact ⟨rfl, fun i h1 _ => absurd h1 (Nat.not_lt_zero i)⟩
  | cons te rest ih =>
    obtain ⟨t, env⟩ := te
    rw [predict_loop_cons] at h
    cases hp : process_single_task images_bucket fn tn env t with
    | error e => rw [hp] at h; cases h
    | ok v =>
      rw [hp] at h
      cases hr : predict_loop images_bucket fn tn rest with
      | error e => rw [hr] at h; cases h
      | ok qs =>
        rw [hr] at h
        injection h with h'
        subst h'
        obtain ⟨hlen, hidx⟩ := ih qs hr
        refine ⟨by simp [hlen], ?_⟩
        intro i h1 h2
        cases i with
        | zero =>
          obtain ⟨a, b, c, d⟩ := v
          show Except.ok _ = predict_step images_bucket fn tn (t, env)
          simp only [predict_step]
          rw [hp]
          rfl
        | succ j =>
          exact hidx j (Nat.lt_of_succ_lt_succ h1) (Nat.lt_of_succ_lt_succ h2)

/-- Witness for C6: a one-task batch that fully succeeds yields a one-entry
response list. -/
theorem batch_success_shape_witness :
    ([({ result := [], score := 0, model_version := "something" } : PredictionEntry)]).length =
      ([(sampleTask, sampleEnv)] : List (AnnotationTask × TaskEnv)).length :=
  (batch_success_shape "bkt" "label" "image" [(sampleTask, sampleEnv)]
      [{ result := [], score := 0, model_version := "something" }] (by rfl)).1

/-- Replace only the logged write-response status of an environment. -/
def TaskEnv.withWriteStatus (env : TaskEnv) (n : Nat) : TaskEnv :=
  { env with write_status := n }

/-- C7: the write response is never inspected: replacing every task's write
response status by anything (in particular a non-2xx status) leaves the batch
loop's outcome unchanged — later tasks still produce their entries, with no
retry and no abort. -/
theorem write_response_ignored (images_bucket fn tn : String)
    (pairs : List (AnnotationTask × TaskEnv)) (g : AnnotationTask × TaskEnv → Nat) :
    predict_loop images_bucket fn tn
        (pairs.map fun te => (te.1, te.2.withWriteStatus (g te))) =
      predict_loop images_bucket fn tn pairs := by
  induction pairs with
  | nil => rfl
  | cons te rest ih =>
    obtain ⟨t, env⟩ := te
    have hstep : process_single_task images_bucket fn tn
        (env.withWriteStatus (g (t, env))) t =
        process_single_task images_bucket fn tn env t := rfl
    simp only [List.map_cons, predict_loop]
    rw [hstep, ih]

theorem predict_loop_model_version (images_bucket fn tn : String)
    (pairs : List (AnnotationTask × TaskEnv)) (ps : List PredictionEntry)
    (h : predict_loop images_bucket fn tn pairs = Except.ok ps) :
    ∀ p ∈ ps, p.model_version = "something" := by
  induction pairs generalizing ps with
  | nil =>
    simp only [predict_loop] at h
    injection h with h'
    subst h'
    intro p hp
    cases hp
  | cons te rest ih =>
    obtain ⟨t, env⟩ := te
    rw [predict_loop_cons] at h
    cases hp : process_single_task images_bucket fn tn env t with
    | error e => rw [hp] at h; cases h
    | ok v =>
      rw [hp] at h
      cases hr : predict_loop images_bucket fn tn rest with
      | error e => rw [hr] at h; cases h
      | ok qs =>
        rw [hr] at h
        injection h with h'
        subst h'
        intro p hmem
        rcases List.mem_cons.mp hmem with hc | hc
        · subst hc; rfl
        · exact ih qs hr p hc

/-- C9: the payload written to the platform always carries model_version
"detectron2", every entry of the HTTP response list carries model_version
"something", and the two tags differ. -/
theorem model_version_tags_disagree (results : List AnnotationRegion)
    (task_id : Nat) (is_prediction_exist : Bool) (score : ℚ) :
    (create_prediction results task_id is_prediction_exist score).2.model_version =
      "detectron2" ∧
    (∀ images_bucket fn tn pairs ps,
      predict_loop images_bucket fn tn pairs = Except.ok ps →
      ∀ p ∈ ps, p.model_version = "something") ∧
    ("detectron2" : String) ≠ "something" := by
  refine ⟨?_, ?_, by decide⟩
  · cases is_prediction_exist <;> rfl
  · intro ib fn tn pairs ps h p hp
    exact predict_loop_model_version ib fn tn pairs ps h p hp

/-- Witness for C9 on a concrete successful one-task batch. -/
theorem model_version_tags_disagree_witness :
    ({ result := [], score := 0, model_version := "something" } :
      PredictionEntry).model_version = "something" :=
  (model_version_tags_disagree [] 1 false 0).2.1 "bkt" "label" "image"
    [(sampleTask, sampleEnv)]
    [{ result := [], score := 0, model_version := "something" }]
    (by rfl) _ (List.mem_singleton.mpr rfl)

/-- C8 counterexample: with a store that returns bytes which the decoder
rejects, `get_image_from_s3` does not fail — it returns successfully with a
null image (Python None), so "fails with DecodeError, does not return a
value" is false on the code. -/
theorem image_resolution_decode_counterexample :
    get_image_from_s3 "bkt" (fun _ _ => Except.ok [0, 1]) (fun _ => none)
      "https://bkt/img.png" = Except.ok none := by rfl

/-- C8 amended: resolution propagates the store's not-found failure
unchanged, but an undecodable image does not make it fail: cv2.imdecode
yields None and the function returns that null image; the failure surfaces
only afterwards, as an attribute error in `process_single_task` when the
shape of the null image is read. -/
theorem image_resolution_failure_modes (images_bucket fn tn : String)
    (env : TaskEnv) (task : AnnotationTask) (bucket_name : String)
    (hbn : bucketSegment task.image = some bucket_name) :
    (∀ e : PipeErr,
      env.get_object bucket_name (basename task.image) = Except.error e →
      get_image_from_s3 images_bucket env.get_object env.imdecode task.image =
        Except.error e) ∧
    (∀ bytes : Bytes,
      env.get_object bucket_name (basename task.image) = Except.ok bytes →
      env.imdecode bytes = none →
      get_image_from_s3 images_bucket env.get_object env.imdecode task.image =
        Except.ok none) ∧
    (get_image_from_s3 images_bucket env.get_object env.imdecode task.image =
        Except.ok none →
      process_single_task images_bucket fn tn env task =
        Except.error PipeErr.attributeError) := by
  refine ⟨fun e he => ?_, fun bytes hb hd => ?_, fun hok => ?_⟩
  · unfold get_image_from_s3
    rw [hbn]
    dsimp only
    by_cases heq : bucket_name = images_bucket
    · subst heq
      rw [if_neg (by simp), he]
      rfl
    · rw [if_pos heq, he]
      rfl
  · unfold get_image_from_s3
    rw [hbn]
    dsimp only
    by_cases heq : bucket_name = images_bucket
    · subst heq
      rw [if_neg (by simp), hb]
      show Except.ok (env.imdecode bytes) = Except.ok none
      rw [hd]
    · rw [if_pos heq, hb]
      show Except.ok (env.imdecode bytes) = Except.ok none
      rw [hd]
  · unfold process_single_task
    dsimp only
    rw [hok]
    rfl

/-- Witness for the amended C8: a not-found store failure propagates. -/
theorem image_resolution_failure_modes_witness :
    get_image_from_s3 "bkt" failEnv.get_object failEnv.imdecode sampleTask.image =
      Except.error PipeErr.clientError :=
  (image_resolution_failure_modes "bkt" "label" "image" failEnv sampleTask "bkt"
      (by rfl)).1 PipeErr.clientError (by rfl)
